import Mathlib

/-!
Verification of the MultimodalWebAgent repository's specification against
its source code, via a shallow embedding in Lean 4.

Source files embedded:
* `src/webdriver/webdriver.py` — the `WebDriver` singleton (browser session).
* `src/oai_agent/oai_agent.py` — the agent configuration, user proxy,
  HTTP handler `get_response`, and websocket handler `on_connect`.
* `src/autogen_config/GetConfig.py` — configuration loading.

Pages are identified by natural-number ids (Playwright page objects are
modelled by their identity); external effects (Playwright calls, the
OpenAI client, file I/O) are modelled by explicit parameters giving each
external call's outcome.
-/

namespace WebDriverModel

/-- A Playwright page, modelled by its identity, closed flag, and viewport. -/
structure Page where
  id : Nat
  closed : Bool
  viewport : Nat × Nat
deriving DecidableEq, Repr

/-- Playwright's default viewport for a freshly opened page
(`browser.new_page()` before any `set_viewport_size` call). -/
def defaultViewport : Nat × Nat := (1280, 720)

/-- Model of `browser.new_page()`: allocates a fresh open page with the default
viewport.  `nextId` is the identity the allocator hands out next. -/
def new_page (nextId : Nat) : Page :=
  { id := nextId, closed := false, viewport := defaultViewport }

/-- Model of `page.set_viewport_size({"width": w, "height": h})`. -/
def set_viewport_size (p : Page) (v : Nat × Nat) : Page :=
  { p with viewport := v }

/-- The mutable state of a `WebDriver` object relevant to page management:
the current `self.page` and the allocator counter for fresh page ids. -/
structure WDState where
  nextId : Nat
  page : Page
deriving DecidableEq, Repr

/-- Page-state part of `WebDriver.createDriver` (webdriver.py lines 104-107):
`self.page = browser.new_page()` followed by
`self.page.set_viewport_size({"width": 960, "height": 1080})`. -/
def createDriverPages : WDState :=
  { nextId := 1, page := set_viewport_size (new_page 0) (960, 1080) }

/-- Embeds `WebDriver.getDriver` (webdriver.py lines 113-123): returns `self.page`. -/
def getDriver (st : WDState) : Page :=
  st.page

/-- Embeds `WebDriver.closeCurrentTab` (webdriver.py lines 143-161):
```
if self.page and not self.page.is_closed():
    self.page.close()
    self.page = self.browser.new_page()
    self.page.set_viewport_size({"width": 960, "height": 1080})
```
When the current page is already closed, the guard fails and the entire
body is skipped: no fresh page is opened. -/
def closeCurrentTab (st : WDState) : WDState :=
  if !st.page.closed then
    { nextId := st.nextId + 1,
      page := set_viewport_size (new_page st.nextId) (960, 1080) }
  else
    st

/-- Allocator invariant: the current page's id was handed out earlier than
the allocator's next fresh id.  Holds for `createDriverPages` and is
preserved by `closeCurrentTab`. -/
def WDInv (st : WDState) : Prop :=
  st.page.id < st.nextId

instance (st : WDState) : Decidable (WDInv st) := by
  unfold WDInv; infer_instance

end WebDriverModel

namespace SingletonModel

open WebDriverModel

/-- A Python runtime error, as raised by the embedded code. -/
inductive PyError where
  | exception (msg : String)
  | attributeError (attr : String)
deriving DecidableEq, Repr

/-- The attributes a `WebDriver` object holds after construction.
`createDriver` (webdriver.py lines 66-111) assigns `self.browser` and
`self.page`, but stores the started Playwright engine only in the local
variable `playwright` — it never assigns `self.playwright`, so that
attribute is absent (`none`). -/
structure WebDriverObj where
  browser : Option Nat
  page : Option Page
  playwright : Option Nat
deriving DecidableEq, Repr

/-- Embeds `WebDriver.createDriver` (webdriver.py lines 66-111), attribute view:
launches the browser, assigns `self.browser` and `self.page` (with the
960x1080 viewport), and drops the `playwright` handle in a local variable.
Its `*args, **kwargs` parameters are never read. -/
def createDriverObj : WebDriverObj :=
  { browser := some 0,
    page := some (set_viewport_size (new_page 0) (960, 1080)),
    playwright := none }

/-- The process-wide class state: `WebDriver.__instance` (an object identity
paired with the object's attributes) and a counter allocating object
identities. -/
structure PyGlobal where
  inst : Option (Nat × WebDriverObj)
  fresh : Nat
deriving DecidableEq, Repr

/-- Embeds `WebDriver.__init__` (webdriver.py lines 49-64): raises
`Exception("This class is a singleton!")` when `WebDriver.__instance` is
already set; otherwise records the new object as the instance and runs
`createDriver` (whose `args` it forwards, unused there). Returns the
identity of the constructed object. -/
def WebDriver_init (g : PyGlobal) (args : Nat) : Except PyError (Nat × PyGlobal) :=
  match g.inst with
  | some _ => Except.error (PyError.exception "This class is a singleton!")
  | none =>
      let _ := args
      Except.ok (g.fresh,
        { inst := some (g.fresh, createDriverObj), fresh := g.fresh + 1 })

/-- Embeds `WebDriver.getInstance` (webdriver.py lines 33-47): constructs the
singleton on first call, forwarding `args`; afterwards returns the stored
instance, the arguments notwithstanding. -/
def getInstance (g : PyGlobal) (args : Nat) : Except PyError (Nat × PyGlobal) :=
  match g.inst with
  | some (i, _) => Except.ok (i, g)
  | none => WebDriver_init g args

/-- Embeds `WebDriver.closeDriver` (webdriver.py lines 125-141):
```
try:
    self.browser.close()
    self.playwright.stop()
except Exception as e:
    logger.error(...)
    raise e
```
Accessing a never-assigned attribute raises `AttributeError`, and the
`except` block re-raises, so the error propagates to the caller. -/
def closeDriver (o : WebDriverObj) : Except PyError Unit :=
  match o.browser with
  | none => Except.error (PyError.attributeError "browser")
  | some _ =>
      match o.playwright with
      | none => Except.error (PyError.attributeError "playwright")
      | some _ => Except.ok ()

end SingletonModel

namespace AgentModel

/-- One outcome of constructing `GPTAssistantAgent` for a role
(oai_agent.py lines 48-56, resolving the assistant id with the OpenAI
backend): the assistant is found, the backend raises
`openai.NotFoundError`, or some other exception is raised. -/
inductive OracleResp where
  | found (assistantId : String)
  | notFound
  | otherError (msg : String)
deriving DecidableEq, Repr

/-- Embeds `configure_agent` (oai_agent.py lines 45-65).  `resolve n` is the
outcome of the `n`-th resolution attempt.  On `openai.NotFoundError` the
code calls `create_agent` and then recursively calls itself
(`return configure_agent(assistant_type, stream)`); any other exception is
re-raised.  The recursion is modelled with explicit `fuel`; the result is
the number of `create_agent` calls performed, paired with the final
outcome (`none` when the recursion exceeds the fuel bound). -/
def configure_agent (resolve : Nat → OracleResp) :
    Nat → Nat → Nat × Option (Except String String)
  | 0, _ => (0, none)
  | fuel + 1, attempt =>
      match resolve attempt with
      | OracleResp.found a => (0, some (Except.ok a))
      | OracleResp.otherError m => (0, some (Except.error m))
      | OracleResp.notFound =>
          let r := configure_agent resolve fuel (attempt + 1)
          (r.1 + 1, r.2)

/-- The termination predicate installed by `create_user_proxy`
(oai_agent.py line 87): `lambda msg: "TERMINATE" in msg["content"]`,
Python substring containment. -/
def is_termination_msg (content : String) : Bool :=
  decide ("TERMINATE".toList <:+: content.toList)

/-- An assistant reply: its text content and the number of tool calls it
carries. -/
structure AssistantMsg where
  content : String
  toolCalls : Nat
deriving DecidableEq, Repr

/-- Modelled from the spec: the conversation loop driven by
`user_proxy.initiate_chat` (the autogen library, not under src/).  With
`human_input_mode="NEVER"`, each oracle turn yields an assistant message;
the loop ends when `is_termination_msg` matches the content, or when the
reply carries no tool calls (spec: conversations without tool calls
terminate in exactly one oracle turn); otherwise the tool calls are
dispatched and the loop continues.  `oracle n` is the reply of turn `n`;
the result is the transcript of processed assistant messages (`none` when
the loop exceeds the fuel bound). -/
def runConversation (oracle : Nat → AssistantMsg) :
    Nat → Nat → Option (List AssistantMsg)
  | 0, _ => none
  | fuel + 1, turn =>
      let msg := oracle turn
      if is_termination_msg msg.content then
        some [msg]
      else if msg.toolCalls = 0 then
        some [msg]
      else
        (runConversation oracle fuel (turn + 1)).map (msg :: ·)

/-- Number of sentinel-bearing assistant messages in a transcript. -/
def countSentinel (l : List AssistantMsg) : Nat :=
  (l.filter (fun m => is_termination_msg m.content)).length

/-- Result of the HTTP handler, as seen by the caller. -/
inductive ApiResult where
  | success (response : String)
  | failure (status : Nat) (detail : String)
deriving DecidableEq, Repr

/-- Embeds `get_response` (oai_agent.py lines 97-107): runs
`configure_agent("BrowsingAgent")`, `register_functions`,
`create_user_proxy`/`initiate_chat` inside one `try`; on success returns
`{"response": response}`; any exception is caught and converted to
`HTTPException(status_code=500, detail="Internal Server Error")`.  The
three fallible steps' outcomes are passed explicitly. -/
def get_response (configure : Except String Unit) (register : Except String Unit)
    (chat : Except String String) : ApiResult :=
  match configure with
  | Except.error _ => ApiResult.failure 500 "Internal Server Error"
  | Except.ok _ =>
      match register with
      | Except.error _ => ApiResult.failure 500 "Internal Server Error"
      | Except.ok _ =>
          match chat with
          | Except.error _ => ApiResult.failure 500 "Internal Server Error"
          | Except.ok r => ApiResult.success r

/-- The body of the `try` block of `on_connect` (oai_agent.py lines
137-153): receive the initial message, configure the agent, register
functions, run the conversation, send the response over the socket.  The
result is the list of output frames sent on the stream. -/
def on_connect_body (input : Except String String) (configure : Except String Unit)
    (register : Except String Unit) (chat : String → Except String String)
    (output : String → Except String Unit) : Except String (List String) :=
  match input with
  | Except.error e => Except.error e
  | Except.ok msg =>
      match configure with
      | Except.error e => Except.error e
      | Except.ok _ =>
          match register with
          | Except.error e => Except.error e
          | Except.ok _ =>
              match chat msg with
              | Except.error e => Except.error e
              | Except.ok resp =>
                  match output resp with
                  | Except.error e => Except.error e
                  | Except.ok _ => Except.ok [resp]

/-- Embeds `on_connect` (oai_agent.py lines 133-156): the whole body runs inside
`try: ... except Exception as e: print(...)` — every exception is caught
and swallowed, and the handler returns normally having sent no output
frame for the failed conversation. -/
def on_connect (input : Except String String) (configure : Except String Unit)
    (register : Except String Unit) (chat : String → Except String String)
    (output : String → Except String Unit) : List String :=
  match on_connect_body input configure register chat output with
  | Except.ok frames => frames
  | Except.error _ => []

/-- Embeds `websocket_endpoint` (oai_agent.py lines 158-163): accepts the socket
and delegates to `on_connect`; returns the frames sent. -/
def websocket_endpoint (input : Except String String) (configure : Except String Unit)
    (register : Except String Unit) (chat : String → Except String String)
    (output : String → Except String Unit) : List String :=
  on_connect input configure register chat output

end AgentModel

namespace ConfigModel

/-- One entry of the provider config list. -/
structure ConfigEntry where
  model : String
  api_key : String
deriving DecidableEq, Repr

/-- The dict `{'config_list': ...}` returned by
`load_and_enrich_config_list`. -/
structure ConfigDict where
  config_list : List ConfigEntry
deriving DecidableEq, Repr

/-- The state of a constructed `GetConfig` object. -/
structure GetConfigState where
  api_key : String
  config_list : ConfigDict
deriving DecidableEq, Repr

/-- Embeds `GetConfig.load_and_enrich_config_list` (GetConfig.py lines 48-67):
loads and filters the config list (`raw` is the outcome of
`config_list_from_json`), then writes `self.api_key` into every entry;
the whole load-and-enrich is wrapped in `try/except` with the fallback
`config_list = []`, and the result is wrapped as `{'config_list': ...}`. -/
def load_and_enrich_config_list (api_key : String)
    (raw : Except String (List ConfigEntry)) : ConfigDict :=
  match raw with
  | Except.error _ => { config_list := [] }
  | Except.ok l => { config_list := l.map (fun c => { c with api_key := api_key }) }

/-- Embeds `GetConfig.__init__` (GetConfig.py lines 29-37):
`self.api_key = os.environ.get('OPENAI_API_KEY', '')` (empty string when
the variable is absent, the failure only logged), then
`self.config_list = self.load_and_enrich_config_list()`.  No path raises:
construction always yields a state. -/
def GetConfig_init (env_key : Option String)
    (raw : Except String (List ConfigEntry)) : Except String GetConfigState :=
  let api_key := env_key.getD ""
  Except.ok { api_key := api_key, config_list := load_and_enrich_config_list api_key raw }

end ConfigModel

namespace LaunchModel

/-- Options passed to `playwright.chromium.launch` (webdriver.py lines
86-101). -/
structure LaunchOptions where
  headless : Bool
  args : List String
deriving DecidableEq, Repr

/-- Options passed when creating the browser context / opening the page.
The code calls `browser.new_context()` and `browser.new_page()` with no
arguments, so no locale and no timezone are configured. -/
structure ContextOptions where
  locale : Option String
  timezoneId : Option String
deriving DecidableEq, Repr

/-- The full browser configuration produced by `createDriver`. -/
structure DriverSetup where
  launch : LaunchOptions
  context : ContextOptions
  pageViewport : Nat × Nat
deriving DecidableEq, Repr

/-- Model of webdriver.py lines 78-80: `locale.getdefaultlocale()` returns
a pair (language code, encoding); when the language component is `None`
the code replaces the whole pair by the string `"en-US"`. -/
def resolveSystemLocale (host : Option String × Option String) :
    Sum (Option String × Option String) String :=
  if host.1 = none then Sum.inr "en-US" else Sum.inl host

/-- Configuration view of `WebDriver.createDriver` (webdriver.py lines
66-111): detects the host timezone (`get_localzone_name()`) and locale
(with the `"en-US"` fallback), then launches Chromium non-headless with
the fixed argument list, creates a context and a page with **no**
locale/timezone options — the detected `timezone_id` and `system_locale`
are never used — and sets the page viewport to 960x1080. -/
def createDriverSetup (hostLocale : Option String × Option String)
    (hostTz : String) (display : Option String) : DriverSetup :=
  let timezone_id := hostTz
  let system_locale := resolveSystemLocale hostLocale
  let _ := timezone_id
  let _ := system_locale
  { launch :=
      { headless := false,
        args := ["--no-sandbox", "--disable-setuid-sandbox", "--disable-gpu",
                 "--disable-dev-shm-usage", "--remote-debugging-port=9222",
                 "--disable-web-security", "--allow-running-insecure-content",
                 "--display=" ++ display.getD ":99"] },
    context := { locale := none, timezoneId := none },
    pageViewport := (960, 1080) }

end LaunchModel

section Theorems

open WebDriverModel SingletonModel AgentModel ConfigModel LaunchModel

/-- C1 counterexample: when the current page was already closed
out-of-band, `closeCurrentTab` skips its body entirely, so `getDriver`
afterwards returns the very same page as before the reset — not a
distinct fresh page, refuting the claim's "holds also when the prior page
was already closed out-of-band". -/
theorem C1_counterexample :
    getDriver (closeCurrentTab
        { nextId := 1, page := { id := 0, closed := true, viewport := (960, 1080) } }) =
      getDriver { nextId := 1, page := { id := 0, closed := true, viewport := (960, 1080) } } := by
  decide

/-- C1 (amended): when the current page is open, `closeCurrentTab`
followed by `getDriver` yields a page distinct from the prior current
page, open and with the fixed 960x1080 viewport; but when the prior page
was already closed out-of-band, `closeCurrentTab` is a no-op (no fresh
page is opened) and `getDriver` returns the same already-closed page. -/
theorem C1_reset_page (st : WDState) :
    (st.page.closed = false → WDInv st →
      getDriver (closeCurrentTab st) ≠ getDriver st ∧
      (getDriver (closeCurrentTab st)).viewport = (960, 1080) ∧
      (getDriver (closeCurrentTab st)).closed = false) ∧
    (st.page.closed = true → closeCurrentTab st = st) := by
  constructor
  · intro hOpen hInv
    unfold WDInv at hInv
    have hc : closeCurrentTab st =
        { nextId := st.nextId + 1,
          page := set_viewport_size (new_page st.nextId) (960, 1080) } := by
      unfold closeCurrentTab
      rw [hOpen]
      rfl
    refine ⟨?_, ?_, ?_⟩
    · intro h
      have hid : (getDriver (closeCurrentTab st)).id = (getDriver st).id :=
        congrArg Page.id h
      rw [hc] at hid
      simp [getDriver, set_viewport_size, new_page] at hid
      omega
    · rw [hc]
      rfl
    · rw [hc]
      rfl
  · intro hClosed
    unfold closeCurrentTab
    rw [hClosed]
    rfl

/-- C1 witness: the amended theorem applied to the freshly created driver
state, whose page is open and satisfies the allocator invariant. -/
theorem C1_reset_page_witness :
    getDriver (closeCurrentTab createDriverPages) ≠ getDriver createDriverPages ∧
    (getDriver (closeCurrentTab createDriverPages)).viewport = (960, 1080) ∧
    (getDriver (closeCurrentTab createDriverPages)).closed = false :=
  (C1_reset_page createDriverPages).1 (by decide) (by decide)

/-- C2: once `getInstance` has produced an instance, calling it again
returns the identical instance (same object identity, unchanged state),
and a direct second construction via `WebDriver.__init__` raises
`Exception("This class is a singleton!")`. -/
theorem C2_singleton (g g' : PyGlobal) (i a a' a'' : Nat)
    (h : getInstance g a = Except.ok (i, g')) :
    getInstance g' a' = Except.ok (i, g') ∧
    WebDriver_init g' a'' =
      Except.error (PyError.exception "This class is a singleton!") := by
  cases hg : g.inst with
  | some p =>
      obtain ⟨j, o⟩ := p
      unfold getInstance at h
      rw [hg] at h
      simp at h
      obtain ⟨hji, hgg⟩ := h
      subst hji
      subst hgg
      constructor
      · unfold getInstance
        rw [hg]
      · unfold WebDriver_init
        rw [hg]
  | none =>
      unfold getInstance WebDriver_init at h
      rw [hg] at h
      simp at h
      obtain ⟨hi, hg'⟩ := h
      constructor
      · unfold getInstance
        rw [← hg']
        simp [hi]
      · unfold WebDriver_init
        rw [← hg']

/-- C2 witness: starting from the uninitialized class state, the first
`getInstance` call constructs instance 0; the theorem then gives the
second call's result and the singleton-violation error for a direct
construction. -/
theorem C2_singleton_witness :
    getInstance { inst := some (0, createDriverObj), fresh := 1 } 7 =
      Except.ok (0, { inst := some (0, createDriverObj), fresh := 1 }) ∧
    WebDriver_init { inst := some (0, createDriverObj), fresh := 1 } 9 =
      Except.error (PyError.exception "This class is a singleton!") :=
  C2_singleton { inst := none, fresh := 0 }
    { inst := some (0, createDriverObj), fresh := 1 } 0 5 7 9 rfl

/-- C3 counterexample: with an oracle that keeps signalling "not found",
`configure_agent` with fuel 3 performs three `create_agent` calls and
still has not returned — the second "not found" is not fatal and the
creation count is not bounded by one, refuting the claim's
"retries resolution exactly once". -/
theorem C3_counterexample :
    configure_agent (fun _ => OracleResp.notFound) 3 0 = (3, none) ∧
    ¬ (configure_agent (fun _ => OracleResp.notFound) 3 0).1 ≤ 1 :=
  ⟨rfl, by decide⟩

/-- C3 (amended): on each "not found" signal `configure_agent` performs a
creation and recursively retries, without bound: an oracle that always
signals "not found" yields as many creations as there is fuel and no
result; a single miss followed by success yields exactly one creation and
the found id; any other error is propagated immediately with no
creation. -/
theorem C3_retry_unbounded :
    (∀ n a, configure_agent (fun _ => OracleResp.notFound) n a = (n, none)) ∧
    (∀ a : String, configure_agent
        (fun n => if n = 0 then OracleResp.notFound else OracleResp.found a) 2 0 =
      (1, some (Except.ok a))) ∧
    (∀ (m : String) (n : Nat), configure_agent
        (fun _ => OracleResp.otherError m) (n + 1) 0 =
      (0, some (Except.error m))) := by
  refine ⟨?_, ?_, ?_⟩
  · intro n
    induction n with
    | zero => intro a; rfl
    | succ k ih =>
        intro a
        simp [configure_agent, ih (a + 1)]
  · intro a
    rfl
  · intro m n
    rfl

/-- C4: the termination predicate holds iff the content contains the
substring "TERMINATE"; every transcript the conversation loop produces
contains at most one sentinel-bearing assistant message; and a
conversation whose first reply carries no tool calls ends after exactly
one oracle turn. -/
theorem C4_termination (oracle : Nat → AssistantMsg) (fuel turn : Nat) :
    (∀ c : String, is_termination_msg c = true ↔ "TERMINATE".toList <:+: c.toList) ∧
    (∀ l, runConversation oracle fuel turn = some l → countSentinel l ≤ 1) ∧
    ((oracle 0).toolCalls = 0 → runConversation oracle (fuel + 1) 0 = some [oracle 0]) := by
  refine ⟨?_, ?_, ?_⟩
  · intro c
    unfold is_termination_msg
    exact decide_eq_true_iff
  · induction fuel generalizing turn with
    | zero =>
        intro l h
        simp [runConversation] at h
    | succ k ih =>
        intro l h
        rw [runConversation] at h
        by_cases ht : is_termination_msg (oracle turn).content = true
        · rw [if_pos ht] at h
          obtain rfl := Option.some.inj h
          simp [countSentinel, ht]
        · rw [if_neg ht] at h
          by_cases htc : (oracle turn).toolCalls = 0
          · rw [if_pos htc] at h
            obtain rfl := Option.some.inj h
            simp [countSentinel, List.filter, ht]
          · rw [if_neg htc] at h
            cases hrec : runConversation oracle k (turn + 1) with
            | none => rw [hrec] at h; simp at h
            | some l' =>
                rw [hrec] at h
                simp at h
                obtain rfl := h.symm
                have : countSentinel l' ≤ 1 := ih (turn + 1) l' hrec
                simpa [countSentinel, List.filter, ht] using this
  · intro htc
    rw [runConversation]
    by_cases ht : is_termination_msg (oracle 0).content = true
    · rw [if_pos ht]
    · rw [if_neg ht, if_pos htc]

/-- C4 witness: the theorem applied to a concrete oracle whose single
reply contains the sentinel and carries no tool calls. -/
theorem C4_termination_witness :
    countSentinel [{ content := "done TERMINATE", toolCalls := 0 }] ≤ 1 ∧
    runConversation (fun _ => { content := "plain answer", toolCalls := 0 }) 1 0 =
      some [{ content := "plain answer", toolCalls := 0 }] :=
  ⟨(C4_termination (fun _ => { content := "done TERMINATE", toolCalls := 0 }) 1 0).2.1
      [{ content := "done TERMINATE", toolCalls := 0 }] (by decide),
   (C4_termination (fun _ => { content := "plain answer", toolCalls := 0 }) 0 0).2.2 rfl⟩

/-- C5: the HTTP handler returns the conversation result on success, and
on a failure of any internal step (configuration, registration, or the
conversation) it returns exactly HTTP 500 with the fixed body
"Internal Server Error", independent of the failure's message. -/
theorem C5_get_response (e x : String) (reg : Except String Unit)
    (chat : Except String String) :
    get_response (Except.ok ()) (Except.ok ()) (Except.ok x) = ApiResult.success x ∧
    get_response (Except.error e) reg chat =
      ApiResult.failure 500 "Internal Server Error" ∧
    get_response (Except.ok ()) (Except.error e) chat =
      ApiResult.failure 500 "Internal Server Error" ∧
    get_response (Except.ok ()) (Except.ok ()) (Except.error e) =
      ApiResult.failure 500 "Internal Server Error" :=
  ⟨rfl, rfl, rfl, rfl⟩

/-- C6: evaluating the code at the failing input — `closeDriver` on the
object `createDriver` builds always raises `AttributeError` on
`self.playwright`, because `createDriver` stores the Playwright handle
only in a local variable and the `except` block re-raises; shutdown never
completes without raising, contradicting the claimed idempotent-safe
shutdown. -/
theorem C6_closeDriver_raises :
    closeDriver createDriverObj = Except.error (PyError.attributeError "playwright") :=
  rfl

/-- C7 counterexample: on a host whose locale detection yields no language
code, `createDriver` computes the fallback `"en-US"` but launches the
context/page with no locale and no timezone options — the fallback is
never applied to the session, refuting the claim's "applied to the
session". -/
theorem C7_counterexample :
    resolveSystemLocale (none, none) = Sum.inr "en-US" ∧
    (createDriverSetup (none, none) "Etc/UTC" none).context.locale = none ∧
    (createDriverSetup (none, none) "Etc/UTC" none).context.timezoneId = none := by
  decide

/-- C7 (amended): first-time construction launches the browser
non-headless with sandboxing disabled and the fixed remote-debug port
9222, sets the initial page viewport to 960x1080, and detects host
locale/timezone with the `"en-US"` fallback — but the detected values are
never applied to the browser context or session. -/
theorem C7_createDriver_config (host : Option String × Option String)
    (tz : String) (d : Option String) :
    (createDriverSetup host tz d).launch.headless = false ∧
    "--no-sandbox" ∈ (createDriverSetup host tz d).launch.args ∧
    "--disable-setuid-sandbox" ∈ (createDriverSetup host tz d).launch.args ∧
    "--remote-debugging-port=9222" ∈ (createDriverSetup host tz d).launch.args ∧
    (createDriverSetup host tz d).pageViewport = (960, 1080) ∧
    (createDriverSetup host tz d).context.locale = none ∧
    (createDriverSetup host tz d).context.timezoneId = none ∧
    resolveSystemLocale (none, none) = Sum.inr "en-US" := by
  refine ⟨rfl, ?_, ?_, ?_, rfl, rfl, rfl, rfl⟩ <;>
    simp [createDriverSetup]

/-- C8: `GetConfig` construction never raises: it always yields a state;
when the config list cannot be loaded the state degrades to
`{'config_list': []}`; and when `OPENAI_API_KEY` is absent the empty
string is written as `api_key` into every loaded config entry. -/
theorem C8_getconfig_degraded (env : Option String) (e : String)
    (l : List ConfigEntry) (raw : Except String (List ConfigEntry)) :
    GetConfig_init env raw =
      Except.ok { api_key := env.getD "",
                  config_list := load_and_enrich_config_list (env.getD "") raw } ∧
    GetConfig_init env (Except.error e) =
      Except.ok { api_key := env.getD "", config_list := { config_list := [] } } ∧
    (∀ c ∈ (load_and_enrich_config_list ((none : Option String).getD "")
        (Except.ok l)).config_list, c.api_key = "") := by
  refine ⟨rfl, rfl, ?_⟩
  intro c hc
  simp [load_and_enrich_config_list] at hc
  obtain ⟨c', _, rfl⟩ := hc
  rfl

/-- C8 witness: the theorem applied at a concrete environment and config
list, with the membership hypothesis discharged on a one-entry list. -/
theorem C8_getconfig_degraded_witness :
    ({ model := "gpt-4-turbo-preview", api_key := "" } : ConfigEntry).api_key = "" :=
  (C8_getconfig_degraded none "load failed"
      [{ model := "gpt-4-turbo-preview", api_key := "sk-secret" }]
      (Except.error "load failed")).2.2
    { model := "gpt-4-turbo-preview", api_key := "" } (by decide)

/-- C9: once an instance exists, `getInstance` ignores its arguments: for
all argument values it returns the stored instance and leaves the global
state (including the instance's browser/page attributes) unchanged, and
two calls with different arguments coincide. -/
theorem C9_getInstance_args_ignored (g : PyGlobal) (i : Nat) (o : WebDriverObj)
    (h : g.inst = some (i, o)) (a a' : Nat) :
    getInstance g a = Except.ok (i, g) ∧ getInstance g a = getInstance g a' := by
  unfold getInstance
  rw [h]
  exact ⟨rfl, rfl⟩

/-- C9 witness: the theorem applied to a concrete initialized global
state with two different argument values. -/
theorem C9_getInstance_args_ignored_witness :
    getInstance { inst := some (0, createDriverObj), fresh := 1 } 3 =
      Except.ok (0, { inst := some (0, createDriverObj), fresh := 1 }) ∧
    getInstance { inst := some (0, createDriverObj), fresh := 1 } 3 =
      getInstance { inst := some (0, createDriverObj), fresh := 1 } 42 :=
  C9_getInstance_args_ignored { inst := some (0, createDriverObj), fresh := 1 }
    0 createDriverObj rfl 3 42

/-- C10: every failure inside `on_connect` — receiving the initial
message, configuring the agent, registering functions, the conversation,
or sending the output — is caught by its catch-all `except`: the handler
returns normally with no output frame sent, and `websocket_endpoint`
never propagates an exception; only the all-success run sends the single
response frame. -/
theorem C10_on_connect_swallow (e msg x : String) (input : Except String String)
    (configure register : Except String Unit) (chat : String → Except String String)
    (output : String → Except String Unit) :
    (on_connect_body input configure register chat output = Except.error e →
      on_connect input configure register chat output = []) ∧
    websocket_endpoint (Except.error e) configure register chat output = [] ∧
    websocket_endpoint (Except.ok msg) (Except.error e) register chat output = [] ∧
    websocket_endpoint (Except.ok msg) (Except.ok ()) (Except.error e) chat output = [] ∧
    websocket_endpoint (Except.ok msg) (Except.ok ()) (Except.ok ())
      (fun _ => Except.error e) output = [] ∧
    websocket_endpoint (Except.ok msg) (Except.ok ()) (Except.ok ())
      (fun _ => Except.ok x) (fun _ => Except.error e) = [] ∧
    websocket_endpoint (Except.ok msg) (Except.ok ()) (Except.ok ())
      (fun _ => Except.ok x) (fun _ => Except.ok ()) = [x] := by
  refine ⟨?_, rfl, rfl, rfl, rfl, rfl, rfl⟩
  intro h
  unfold on_connect
  rw [h]

/-- C10 witness: the theorem applied at a concrete failing run (the
initial receive fails), with the body-failure hypothesis discharged by
evaluation. -/
theorem C10_on_connect_swallow_witness :
    on_connect (Except.error "connection closed") (Except.ok ()) (Except.ok ())
      (fun _ => Except.ok "resp") (fun _ => Except.ok ()) = [] :=
  (C10_on_connect_swallow "connection closed" "m" "resp"
      (Except.error "connection closed") (Except.ok ()) (Except.ok ())
      (fun _ => Except.ok "resp") (fun _ => Except.ok ())).1 rfl

end Theorems
